import Mathlib

/-!
Shallow embedding of `src/main.py` (android-health-connect-data-explorer).

The script reads rows (epoch_millis, beats_per_minute) from the SQLite table
`heart_rate_record_series_table`, filters them (`beats_per_minute > 0`, and
`<= max_bpm` when supplied), sorts by timestamp, resamples into daily ('D'),
weekly ('W' = weeks ending on Sunday) and monthly ('ME' = month end) bins,
takes the arithmetic mean per bin, drops empty bins, and renders the result.

Timestamps are epoch milliseconds, modelled as `Nat` (the exporter produces
nonnegative Unix-millisecond stamps).  Means are modelled exactly in `ℚ`.
Stateful fragments (stderr diagnostics, `sys.exit`, the in-place index
reassignment done by `output_console`) are modelled by explicit state passing:
functions return the diagnostics they print and the post-call state of the
data frames they received.
-/

namespace HealthConnect

/-- Milliseconds in one calendar day. -/
def msPerDay : Nat := 86400000

/-- Calendar-day index (days since 1970-01-01) of an epoch-milliseconds
timestamp; this is how pandas assigns a tz-naive millisecond timestamp to a
calendar day when resampling with frequency 'D'. -/
def dayOf (t : Nat) : Nat := t / msPerDay

/-- Day index of the Sunday on or after day `d`.  Day 0 (1970-01-01) was a
Thursday, so Sundays are the days `d` with `d % 7 = 3`.  Pandas frequency 'W'
(alias 'W-SUN') bins timestamps into weeks ending on Sunday and labels each
bin with that Sunday. -/
def weekEndDay (d : Nat) : Nat := d + (10 - d % 7) % 7

/-- Gregorian `(year, month, day-of-month)` of a day index (days since
1970-01-01).  Standard era-based civil-from-days computation, specialised to
nonnegative day indices (all timestamps the script ingests are ≥ 1970). -/
def civilFromDay (z0 : Nat) : Nat × Nat × Nat :=
  let z := z0 + 719468
  let era := z / 146097
  let doe := z % 146097
  let yoe := (doe - doe / 1460 + doe / 36524 - doe / 146096) / 365
  let y := yoe + era * 400
  let doy := doe - (365 * yoe + yoe / 4 - yoe / 100)
  let mp := (5 * doy + 2) / 153
  let dd := doy - (153 * mp + 2) / 5 + 1
  let m := if mp < 10 then mp + 3 else mp - 9
  (if m ≤ 2 then y + 1 else y, m, dd)

/-- Day index (days since 1970-01-01) of a Gregorian date; inverse of
`civilFromDay` on dates from 1970-01-01 onward. -/
def daysFromCivil (y m d : Nat) : Nat :=
  let yy := if m ≤ 2 then y - 1 else y
  let era := yy / 400
  let yoe := yy % 400
  let mp := if 2 < m then m - 3 else m + 9
  let doy := (153 * mp + 2) / 5 + d - 1
  let doe := yoe * 365 + yoe / 4 - yoe / 100 + doy
  era * 146097 + doe - 719468

/-- Gregorian leap-year test. -/
def isLeap (y : Nat) : Bool := y % 4 == 0 && (y % 100 != 0 || y % 400 == 0)

/-- Number of days in month `m` of year `y`. -/
def daysInMonth (y m : Nat) : Nat :=
  if m = 2 then (if isLeap y then 29 else 28)
  else if m = 4 ∨ m = 6 ∨ m = 9 ∨ m = 11 then 30 else 31

/-- Day index of the last day of the calendar month containing day `d`.
Pandas frequency 'ME' (month end) labels each monthly bin with this day. -/
def monthEndDayOf (d : Nat) : Nat :=
  let c := civilFromDay d
  daysFromCivil c.1 c.2.1 (daysInMonth c.1 c.2.1)

/-- Label (in epoch ms) pandas attaches to the daily bin of timestamp `t`:
midnight starting the calendar day. -/
def dailyLabel (t : Nat) : Nat := dayOf t * msPerDay

/-- Label (in epoch ms) pandas attaches to the weekly ('W') bin of
timestamp `t`: midnight of the Sunday that ends the Monday-through-Sunday
week containing `t`. -/
def weeklyLabel (t : Nat) : Nat := weekEndDay (dayOf t) * msPerDay

/-- Label (in epoch ms) pandas attaches to the monthly ('ME') bin of
timestamp `t`: midnight of the last day of the calendar month containing
`t`. -/
def monthlyLabel (t : Nat) : Nat := monthEndDayOf (dayOf t) * msPerDay

/-- One row of `heart_rate_record_series_table` as selected by the query:
the `epoch_millis` timestamp column (Unix milliseconds) and the
`beats_per_minute` column (SQLite INTEGER, hence `Int`). -/
structure Sample where
  epoch_millis : Nat
  beats_per_minute : Int
deriving DecidableEq

/-- Insert a bin key into a strictly sorted key list, keeping it strictly
sorted and duplicate-free.  Pandas resampling produces its bins in
chronological order with one bin per distinct period, which this models. -/
def insertKey (k : Nat) : List Nat → List Nat
  | [] => [k]
  | a :: rest =>
      if k < a then k :: a :: rest
      else if k = a then a :: rest
      else a :: insertKey k rest

/-- The strictly sorted list of distinct bin keys occupied by a sample
list under the bin-key function `key`. -/
def binKeys (key : Nat → Nat) (s : List Sample) : List Nat :=
  s.foldr (fun x acc => insertKey (key x.epoch_millis) acc) []

/-- Exact arithmetic mean of a list of integer BPM values (pandas
`.mean()` on one bin), modelled in `ℚ`. -/
def meanQ (l : List Int) : ℚ := (l.map (fun v => (v : ℚ))).sum / l.length

/-- Model of `df.resample(freq).mean().dropna()`: one `(bin label, mean of
the bin's values)` pair per occupied bin, in chronological order.  Empty
bins produce NaN means and are removed by `.dropna()`, so only occupied
bins appear. -/
def resampleMean (key : Nat → Nat) (s : List Sample) : List (Nat × ℚ) :=
  (binKeys key s).map fun k =>
    (k, meanQ ((s.filter fun x => key x.epoch_millis == k).map Sample.beats_per_minute))

/-- Model of `calculate_averages` (src/main.py lines 144-153): daily,
weekly and monthly resampled means of the fetched frame. -/
def calculate_averages (df : List Sample) :
    List (Nat × ℚ) × List (Nat × ℚ) × List (Nat × ℚ) :=
  (resampleMean dailyLabel df, resampleMean weeklyLabel df, resampleMean monthlyLabel df)

/-- The three granularities produced by `calculate_averages`. -/
inductive Granularity where
  | day
  | week
  | month

/-- Bin-label function used by each granularity. -/
def labelOf : Granularity → Nat → Nat
  | .day => dailyLabel
  | .week => weeklyLabel
  | .month => monthlyLabel

/-- Component of `calculate_averages` belonging to each granularity. -/
def aggOf (g : Granularity) (df : List Sample) : List (Nat × ℚ) :=
  match g with
  | .day => (calculate_averages df).1
  | .week => (calculate_averages df).2.1
  | .month => (calculate_averages df).2.2

/-- The WHERE clause of the query built by `fetch_heart_rate_data`:
`beats_per_minute > 0`, and additionally `beats_per_minute <= ?` with the
ceiling bound as a parameter when `max_bpm` is supplied. -/
def whereClause (max_bpm : Option Int) (r : Sample) : Bool :=
  decide (0 < r.beats_per_minute) &&
    match max_bpm with
    | none => true
    | some c => decide (r.beats_per_minute ≤ c)

/-- Outcome of running the select against the database: the matching table
rows, a database error (missing table/column and the like, surfaced by
pandas as a DatabaseError), or any other exception raised while fetching. -/
inductive QueryOutcome where
  | rows (table : List Sample)
  | dbError (e : String)
  | otherError (e : String)

/-- Model of `fetch_heart_rate_data` (src/main.py lines 73-142): returns
the sorted non-empty data frame, or `none` after printing a diagnostic
(empty result, database error, or any other exception — both `except`
arms return `None`).  The second component is the list of diagnostic lines
printed; quote characters of the original hint text are elided. -/
def fetch_heart_rate_data (q : QueryOutcome) (max_bpm : Option Int) :
    Option (List Sample) × List String :=
  match q with
  | .dbError e =>
      (none,
       ["SQL Error: " ++ e,
        "This likely means the assumed table heart_rate_record_series_table or",
        "columns time/beats_per_minute do not exist.",
        "Please inspect your database and update the SQL query in the script."])
  | .otherError e =>
      (none, ["An unexpected error occurred during data fetching: " ++ e])
  | .rows table =>
      let df := table.filter (whereClause max_bpm)
      if df.isEmpty then
        (none, ["No heart rate data found with the current query."])
      else
        (some (df.insertionSort fun a b => a.epoch_millis ≤ b.epoch_millis), [])

/-- Output mode selected by `--output`. -/
inductive OutMode where
  | console
  | graph
deriving DecidableEq

/-- Result of one run of `main`: an early `sys.exit` with the diagnostics
printed, or a completed run that aggregated and presented the three series. -/
inductive MainOutcome where
  | exit (code : Nat) (diags : List String)
  | done (mode : OutMode) (daily weekly monthly : List (Nat × ℚ))
deriving DecidableEq

/-- Model of `main` together with `connect_db` (src/main.py lines 27-38 and
228-280): a missing database file exits with code 1 before any query,
naming the path; a `None` frame from `fetch_heart_rate_data` exits with
code 1; otherwise the averages are computed and presented. -/
def main_model (dbExists : Bool) (dbPath : String) (q : QueryOutcome)
    (max_bpm : Option Int) (mode : OutMode) : MainOutcome :=
  if !dbExists then
    .exit 1 ["Error: Database file not found at " ++ dbPath]
  else
    match fetch_heart_rate_data q max_bpm with
    | (none, diags) => .exit 1 diags
    | (some df, _) =>
        let r := calculate_averages df
        .done mode r.1 r.2.1 r.2.2

/-- Index value of a pandas data frame in this script: a timestamp index
entry, or a string index entry after `strftime` formatting. -/
inductive IdxVal where
  | ts (ms : Nat)
  | str (s : String)
deriving DecidableEq

/-- A data frame as passed to the presentation functions: index plus the
single BPM mean column. -/
abbrev Frame := List (IdxVal × ℚ)

/-- Aggregate series as it leaves `calculate_averages`: timestamp index. -/
def toFrame (l : List (Nat × ℚ)) : Frame := l.map fun p => (.ts p.1, p.2)

/-- Zero-padded two-digit decimal rendering. -/
def pad2 (n : Nat) : String := if n < 10 then "0" ++ toString n else toString n

/-- Rendering of a timestamp by the format `%Y-%m` (used for the monthly
index). -/
def fmtYm (ms : Nat) : String :=
  let c := civilFromDay (ms / msPerDay)
  toString c.1 ++ "-" ++ pad2 c.2.1

/-- Rendering of a timestamp by the format `%Y-%m-%d` (used for the daily
index). -/
def fmtYmd (ms : Nat) : String :=
  let c := civilFromDay (ms / msPerDay)
  toString c.1 ++ "-" ++ pad2 c.2.1 ++ "-" ++ pad2 c.2.2

/-- Week-of-year number of strftime `%U`: weeks start on Sunday, days
before the first Sunday of the year are week 0. -/
def weekU (d : Nat) : Nat :=
  let c := civilFromDay d
  let yday := d - daysFromCivil c.1 1 1
  (yday + 7 - (d + 4) % 7) / 7

/-- Rendering of a timestamp by the format `%Y - Week %U` (used for the
weekly index). -/
def fmtYWeek (ms : Nat) : String :=
  let d := ms / msPerDay
  toString (civilFromDay d).1 ++ " - Week " ++ pad2 (weekU d)

/-- Effect of `index.strftime` on one index entry. -/
def strftimeIdx (fmt : Nat → String) : IdxVal → IdxVal
  | .ts ms => .str (fmt ms)
  | .str s => .str s

/-- Model of `output_console` (src/main.py lines 155-171): it reassigns
the index of each frame it received to the `strftime`-formatted strings
(`monthly.index = monthly.index.strftime(...)` mutates the caller's
frame), then prints.  The returned triple is the post-call state of the
three frames the caller passed in. -/
def output_console (daily weekly monthly : Frame) : Frame × Frame × Frame :=
  (daily.map fun p => (strftimeIdx fmtYmd p.1, p.2),
   weekly.map fun p => (strftimeIdx fmtYWeek p.1, p.2),
   monthly.map fun p => (strftimeIdx fmtYm p.1, p.2))

/-- Model of `output_graph` (src/main.py lines 173-226): it builds its
Bokeh column sources from `reset_index()` copies and never writes to the
frames it received, so the post-call state of the three frames equals the
input state. -/
def output_graph (daily weekly monthly : Frame) : Frame × Frame × Frame :=
  (daily, weekly, monthly)

/-- Modelled from the spec: the claimed Sunday-through-Saturday weekly
convention — the week of a day is identified by the most recent Sunday on
or before it.  Used only to compare the spec wording with the code. -/
def sundayStartOfDay (d : Nat) : Nat := d - (d + 4) % 7

/-- Sunday concluding the Monday-through-Sunday week containing day `d`,
computed from the Monday-based weekday (`(d + 3) % 7 = 0` on Mondays). -/
def mondayWeekEnd (d : Nat) : Nat := d + (6 - (d + 3) % 7)

/-- Modelled from the spec: the starting instant of the calendar month
containing a given instant (the spec claims each monthly Aggregate Point
carries its period's starting instant). -/
def monthPeriodStartMs (labelMs : Nat) : Nat :=
  let c := civilFromDay (labelMs / msPerDay)
  daysFromCivil c.1 c.2.1 1 * msPerDay

/-! Helper lemmas about the bin-key machinery. -/

/-- Membership in `insertKey`. -/
theorem mem_insertKey {a k : Nat} : ∀ {l : List Nat}, a ∈ insertKey k l ↔ a = k ∨ a ∈ l
  | [] => by simp [insertKey]
  | b :: rest => by
    unfold insertKey
    by_cases h1 : k < b
    · simp [h1]
    · by_cases h2 : k = b
      · simp [h1, h2]
      · simp [h1, h2, mem_insertKey (l := rest)]
        tauto

/-- Inserting a key keeps the key list strictly sorted. -/
theorem sorted_insertKey {k : Nat} :
    ∀ {l : List Nat}, l.Sorted (· < ·) → (insertKey k l).Sorted (· < ·)
  | [], _ => by simp [insertKey]
  | b :: rest, h => by
    rw [List.sorted_cons] at h
    by_cases h1 : k < b
    · simp only [insertKey, if_pos h1]
      rw [List.sorted_cons]
      refine ⟨?_, List.sorted_cons.mpr h⟩
      intro c hc
      rcases List.mem_cons.mp hc with rfl | hc
      · exact h1
      · exact lt_trans h1 (h.1 c hc)
    · by_cases h2 : k = b
      · subst h2
        simp only [insertKey, if_neg h1, if_pos rfl]
        exact List.sorted_cons.mpr h
      · simp only [insertKey, if_neg h1, if_neg h2]
        rw [List.sorted_cons]
        refine ⟨?_, sorted_insertKey h.2⟩
        intro c hc
        rcases mem_insertKey.mp hc with rfl | hc
        · omega
        · exact h.1 c hc

/-- The result of `insertKey` is never empty. -/
theorem insertKey_ne_nil (k : Nat) (l : List Nat) : insertKey k l ≠ [] := by
  cases l with
  | nil => simp [insertKey]
  | cons a rest =>
      by_cases h1 : k < a <;> by_cases h2 : k = a <;> simp [insertKey, h1, h2]

/-- The occupied bin keys are strictly sorted. -/
theorem sorted_binKeys (key : Nat → Nat) (s : List Sample) :
    (binKeys key s).Sorted (· < ·) := by
  induction s with
  | nil => simp [binKeys]
  | cons x xs ih =>
      show (insertKey (key x.epoch_millis) (binKeys key xs)).Sorted (· < ·)
      exact sorted_insertKey ih

/-- A key is occupied exactly when some sample maps to it. -/
theorem mem_binKeys {key : Nat → Nat} {s : List Sample} {k : Nat} :
    k ∈ binKeys key s ↔ ∃ x ∈ s, key x.epoch_millis = k := by
  induction s with
  | nil => simp [binKeys]
  | cons x xs ih =>
      show k ∈ insertKey (key x.epoch_millis) (binKeys key xs) ↔ _
      rw [mem_insertKey, ih]
      simp only [List.mem_cons]
      constructor
      · rintro (rfl | ⟨y, hy, rfl⟩)
        · exact ⟨x, Or.inl rfl, rfl⟩
        · exact ⟨y, Or.inr hy, rfl⟩
      · rintro ⟨y, (rfl | hy), rfl⟩
        · exact Or.inl rfl
        · exact Or.inr ⟨y, hy, rfl⟩

/-- The labels of the resampled means are exactly the occupied bin keys. -/
theorem map_fst_resampleMean (key : Nat → Nat) (s : List Sample) :
    (resampleMean key s).map Prod.fst = binKeys key s := by
  have h : (Prod.fst ∘ fun k : Nat =>
      (k, meanQ ((s.filter fun x => key x.epoch_millis == k).map
        Sample.beats_per_minute))) = fun k : Nat => k := rfl
  unfold resampleMean
  rw [List.map_map, h]
  exact List.map_id' _

/-- Membership in `resampleMean`. -/
theorem mem_resampleMean {key : Nat → Nat} {s : List Sample} {p : Nat × ℚ} :
    p ∈ resampleMean key s ↔
      p.1 ∈ binKeys key s ∧
      p.2 = meanQ ((s.filter fun x => key x.epoch_millis == p.1).map
        Sample.beats_per_minute) := by
  constructor
  · intro hp
    obtain ⟨k, hk, hpk⟩ := List.mem_map.mp hp
    cases hpk
    exact ⟨hk, rfl⟩
  · obtain ⟨k, q⟩ := p
    rintro ⟨hk, hq⟩
    have hq2 : q = meanQ ((s.filter fun x => key x.epoch_millis == k).map
        Sample.beats_per_minute) := hq
    subst hq2
    exact List.mem_map.mpr ⟨k, hk, rfl⟩

/-- Every occupied bin has at least one contributing sample. -/
theorem bin_nonempty {key : Nat → Nat} {s : List Sample} {k : Nat}
    (h : k ∈ binKeys key s) :
    (s.filter fun x => key x.epoch_millis == k) ≠ [] := by
  obtain ⟨x, hx, hxk⟩ := mem_binKeys.mp h
  intro hemp
  have hmem : x ∈ s.filter fun x => key x.epoch_millis == k :=
    List.mem_filter.mpr ⟨hx, by simp [hxk]⟩
  simp [hemp] at hmem

/-- A non-empty sample list produces a non-empty aggregate sequence. -/
theorem resampleMean_ne_nil {key : Nat → Nat} {s : List Sample} (hs : s ≠ []) :
    resampleMean key s ≠ [] := by
  cases s with
  | nil => exact absurd rfl hs
  | cons x xs =>
      have h : binKeys key (x :: xs) ≠ [] := insertKey_ne_nil _ _
      simp only [resampleMean, ne_eq, List.map_eq_nil_iff]
      exact h

/-- Each granularity component of `calculate_averages` is a resampled mean. -/
theorem aggOf_eq (g : Granularity) (s : List Sample) :
    aggOf g s = resampleMean (labelOf g) s := by
  cases g <;> rfl

/-- C1: for every non-empty Sample Series, each Aggregate Point of each
granularity carries the arithmetic mean of exactly the samples whose
timestamp falls in that point's calendar period (the samples mapped to the
point's bin label); the bin labels are pairwise distinct, so no sample
contributes to two periods of the same granularity; every sample
contributes to some emitted point; and every emitted point has at least
one contributing sample, so no zero-sample period appears. -/
theorem c1_partition_and_mean (g : Granularity) (s : List Sample) (hs : s ≠ []) :
    (∀ p ∈ aggOf g s,
        p.2 = meanQ ((s.filter fun x => labelOf g x.epoch_millis == p.1).map
          Sample.beats_per_minute) ∧
        (s.filter fun x => labelOf g x.epoch_millis == p.1) ≠ []) ∧
    ((aggOf g s).map Prod.fst).Nodup ∧
    (∀ x ∈ s, ∃ p ∈ aggOf g s, labelOf g x.epoch_millis = p.1) ∧
    aggOf g s ≠ [] := by
  rw [aggOf_eq]
  refine ⟨?_, ?_, ?_, resampleMean_ne_nil hs⟩
  · intro p hp
    obtain ⟨hk, hq⟩ := mem_resampleMean.mp hp
    exact ⟨hq, bin_nonempty hk⟩
  · rw [map_fst_resampleMean]
    exact (sorted_binKeys _ _).nodup
  · intro x hx
    have hk : labelOf g x.epoch_millis ∈ binKeys (labelOf g) s :=
      mem_binKeys.mpr ⟨x, hx, rfl⟩
    exact ⟨(labelOf g x.epoch_millis,
        meanQ ((s.filter fun y =>
          labelOf g y.epoch_millis == labelOf g x.epoch_millis).map
          Sample.beats_per_minute)),
      mem_resampleMean.mpr ⟨hk, rfl⟩, rfl⟩

/-- Witness for C1 at Scenario 1 of the spec: the two samples of day
1970-01-01 with values 60 and 80 produce the single daily point
(midnight of 1970-01-01, 70). -/
theorem c1_partition_and_mean_witness :
    ([⟨0, 60⟩, ⟨1000, 80⟩] : List Sample) ≠ [] ∧
    ((∀ p ∈ aggOf .day [⟨0, 60⟩, ⟨1000, 80⟩],
        p.2 = meanQ ((([⟨0, 60⟩, ⟨1000, 80⟩] : List Sample).filter fun x =>
          labelOf .day x.epoch_millis == p.1).map Sample.beats_per_minute) ∧
        (([⟨0, 60⟩, ⟨1000, 80⟩] : List Sample).filter fun x =>
          labelOf .day x.epoch_millis == p.1) ≠ []) ∧
      ((aggOf .day [⟨0, 60⟩, ⟨1000, 80⟩]).map Prod.fst).Nodup ∧
      (∀ x ∈ ([⟨0, 60⟩, ⟨1000, 80⟩] : List Sample),
        ∃ p ∈ aggOf .day [⟨0, 60⟩, ⟨1000, 80⟩],
          labelOf .day x.epoch_millis = p.1) ∧
      aggOf .day [⟨0, 60⟩, ⟨1000, 80⟩] ≠ []) ∧
    aggOf .day [⟨0, 60⟩, ⟨1000, 80⟩] = [(0, meanQ [60, 80])] ∧
    meanQ [60, 80] = 70 :=
  ⟨by decide, c1_partition_and_mean .day [⟨0, 60⟩, ⟨1000, 80⟩] (by decide), rfl,
    by norm_num [meanQ]⟩

/-- C2 is false as stated: the samples at midnight of Sunday 1970-01-04
(day 3) and midnight of Monday 1970-01-05 (day 4) lie in the same
Sunday-through-Saturday week, yet the weekly aggregation assigns them
different bin labels and emits two distinct weekly Aggregate Points. -/
theorem c2_counterexample :
    ¬ (weeklyLabel (3 * msPerDay) = weeklyLabel (4 * msPerDay) ↔
        sundayStartOfDay (dayOf (3 * msPerDay)) = sundayStartOfDay (dayOf (4 * msPerDay))) ∧
    (aggOf .week [⟨3 * msPerDay, 70⟩, ⟨4 * msPerDay, 80⟩]).map Prod.fst =
      [3 * msPerDay, 10 * msPerDay] := by
  constructor
  · decide
  · decide

/-- C2 amended: two samples land in the same weekly bin if and only if
they fall in the same Monday-through-Sunday week — pandas frequency 'W'
is 'W-SUN', weeks ENDING on Sunday — where the Monday-through-Sunday week
of a day is identified by its concluding Sunday, computed from the
Monday-based weekday. -/
theorem c2_amended (t u : Nat) :
    weeklyLabel t = weeklyLabel u ↔
      mondayWeekEnd (dayOf t) = mondayWeekEnd (dayOf u) := by
  unfold weeklyLabel weekEndDay mondayWeekEnd dayOf msPerDay
  omega

/-- C3: with a ceiling C every fetched sample satisfies 0 < bpm ≤ C, and
when every table row already satisfies bpm ≤ C the run with ceiling C
returns exactly what the run without a ceiling returns (so omitting the
ceiling behaves as C = +infinity: only the bpm > 0 filter applies). -/
theorem c3_max_bpm_filter (table : List Sample) (C : Int) :
    (∀ df, (fetch_heart_rate_data (.rows table) (some C)).1 = some df →
      ∀ r ∈ df, 0 < r.beats_per_minute ∧ r.beats_per_minute ≤ C) ∧
    ((∀ r ∈ table, r.beats_per_minute ≤ C) →
      fetch_heart_rate_data (.rows table) (some C) =
        fetch_heart_rate_data (.rows table) none) := by
  constructor
  · intro df hdf r hr
    by_cases he : (table.filter (whereClause (some C))).isEmpty
    · simp [fetch_heart_rate_data, he] at hdf
    · simp only [fetch_heart_rate_data, he, if_neg, Bool.false_eq_true,
        ite_false, Option.some.injEq] at hdf
      subst hdf
      have hrf : r ∈ table.filter (whereClause (some C)) :=
        List.mem_insertionSort _ |>.mp hr
      have hw : whereClause (some C) r = true := (List.mem_filter.mp hrf).2
      simp only [whereClause, Bool.and_eq_true, decide_eq_true_eq] at hw
      exact hw
  · intro hall
    have hfe : table.filter (whereClause (some C)) = table.filter (whereClause none) := by
      apply List.filter_congr
      intro x hx
      simp only [whereClause, Bool.and_eq_true, decide_eq_true_eq]
      simp [hall x hx]
    simp only [fetch_heart_rate_data, hfe]

/-- Witness for C3 at Scenario 3 of the spec: with ceiling 100 and rows
90 and 150, the fetched row 90 satisfies 0 < 90 ≤ 100; and on a table
whose values are all ≤ 100 the ceiling-100 run equals the no-ceiling
run. -/
theorem c3_max_bpm_filter_witness :
    (0 < (⟨0, 90⟩ : Sample).beats_per_minute ∧
      (⟨0, 90⟩ : Sample).beats_per_minute ≤ 100) ∧
    fetch_heart_rate_data (.rows [⟨0, 90⟩]) (some 100) =
      fetch_heart_rate_data (.rows [⟨0, 90⟩]) none :=
  ⟨(c3_max_bpm_filter [⟨0, 90⟩, ⟨1, 150⟩] 100).1 [⟨0, 90⟩] (by decide) ⟨0, 90⟩
      (by decide),
    (c3_max_bpm_filter [⟨0, 90⟩] 100).2 (by decide)⟩

/-- C4 is false as stated: for the single sample at epoch 0 the monthly
Aggregate Point is labelled with midnight of 1970-01-31 (the month END,
pandas frequency 'ME'), while the starting instant of its calendar-month
period is epoch 0. -/
theorem c4_counterexample :
    ((calculate_averages [⟨0, 70⟩]).2.2).map Prod.fst = [30 * msPerDay] ∧
    monthPeriodStartMs (30 * msPerDay) = 0 ∧
    30 * msPerDay ≠ 0 := by
  refine ⟨by decide, by decide, by decide⟩

/-- C4 amended: every Aggregate Point is a (label, mean) pair, but only
the daily label is the starting instant of its calendar period (the day
containing its samples); the weekly label is the starting instant of the
period's LAST day — the Sunday concluding a Monday-through-Sunday week —
and the monthly label is the starting instant of the LAST day of the
calendar month. -/
theorem c4_amended (s : List Sample) :
    (∀ p ∈ (calculate_averages s).1, ∃ x ∈ s,
        p.1 = dayOf x.epoch_millis * msPerDay ∧
        p.1 ≤ x.epoch_millis ∧ x.epoch_millis < p.1 + msPerDay) ∧
    (∀ p ∈ (calculate_averages s).2.1, ∃ x ∈ s,
        p.1 = weekEndDay (dayOf x.epoch_millis) * msPerDay ∧
        (p.1 / msPerDay) % 7 = 3 ∧
        dayOf x.epoch_millis ≤ p.1 / msPerDay ∧
        p.1 / msPerDay ≤ dayOf x.epoch_millis + 6) ∧
    (∀ p ∈ (calculate_averages s).2.2, ∃ x ∈ s,
        p.1 = monthEndDayOf (dayOf x.epoch_millis) * msPerDay) := by
  refine ⟨?_, ?_, ?_⟩
  · intro p hp
    obtain ⟨hk, -⟩ := mem_resampleMean.mp hp
    obtain ⟨x, hx, hxk⟩ := mem_binKeys.mp hk
    refine ⟨x, hx, ?_, ?_, ?_⟩ <;>
      · rw [← hxk]
        unfold dailyLabel dayOf msPerDay
        omega
  · intro p hp
    obtain ⟨hk, -⟩ := mem_resampleMean.mp hp
    obtain ⟨x, hx, hxk⟩ := mem_binKeys.mp hk
    refine ⟨x, hx, ?_, ?_, ?_, ?_⟩ <;>
      · rw [← hxk]
        unfold weeklyLabel weekEndDay dayOf msPerDay
        omega
  · intro p hp
    obtain ⟨hk, -⟩ := mem_resampleMean.mp hp
    obtain ⟨x, hx, hxk⟩ := mem_binKeys.mp hk
    exact ⟨x, hx, hxk.symm⟩

/-- Witness for C4 amended at the single sample at epoch 0: its monthly
point is labelled with the start of the last day of January 1970. -/
theorem c4_amended_witness :
    ∃ x ∈ ([⟨0, 70⟩] : List Sample),
      ((30 * msPerDay, meanQ [70])).1 = monthEndDayOf (dayOf x.epoch_millis) * msPerDay :=
  (c4_amended [⟨0, 70⟩]).2.2 (30 * msPerDay, meanQ [70]) (by
    have h : (calculate_averages [(⟨0, 70⟩ : Sample)]).2.2 =
        [(30 * msPerDay, meanQ [70])] := rfl
    rw [h]
    exact List.mem_singleton.mpr rfl)

/-- C5: when the query matches no rows, the run prints the no-data
diagnostic, exits with status 1 (non-zero), and never reaches aggregation
or presentation (the outcome is an exit, not a completed run). -/
theorem c5_empty_result (path : String) (table : List Sample)
    (max_bpm : Option Int) (mode : OutMode)
    (h : table.filter (whereClause max_bpm) = []) :
    main_model true path (.rows table) max_bpm mode =
      .exit 1 ["No heart rate data found with the current query."] ∧
    ∀ m d w mo, main_model true path (.rows table) max_bpm mode ≠ .done m d w mo := by
  have h1 : (table.filter (whereClause max_bpm)).isEmpty = true := by
    simp [h]
  constructor
  · simp [main_model, fetch_heart_rate_data, h1]
  · intro m d w mo
    simp [main_model, fetch_heart_rate_data, h1]

/-- Witness for C5 on an empty table: the run exits with code 1 and the
no-data diagnostic. -/
theorem c5_empty_result_witness :
    ([] : List Sample).filter (whereClause none) = [] ∧
    main_model true "export.db" (.rows []) none .console =
      .exit 1 ["No heart rate data found with the current query."] :=
  ⟨by decide, (c5_empty_result "export.db" [] none .console (by decide)).1⟩

/-- C6: when the database file does not exist, the run exits with code 1,
the diagnostic printed names the missing path, and no query is attempted —
the outcome is the same whatever the query would have returned and
whatever the other arguments are. -/
theorem c6_missing_file (path : String) (q q2 : QueryOutcome)
    (b b2 : Option Int) (m m2 : OutMode) :
    main_model false path q b m =
      .exit 1 ["Error: Database file not found at " ++ path] ∧
    main_model false path q b m = main_model false path q2 b2 m2 := by
  constructor <;> simp [main_model]

/-- C7: a query failure makes `fetch_heart_rate_data` return `none` after
printing a diagnostic whose first line carries the SQL error plus hint
lines (rather than raising past its caller), and `main` then exits with
code 1. -/
theorem c7_query_failure (e : String) (b : Option Int) (path : String) (m : OutMode) :
    (fetch_heart_rate_data (.dbError e) b).1 = none ∧
    (fetch_heart_rate_data (.dbError e) b).2.head? = some ("SQL Error: " ++ e) ∧
    (fetch_heart_rate_data (.dbError e) b).2 ≠ [] ∧
    main_model true path (.dbError e) b m =
      .exit 1 (fetch_heart_rate_data (.dbError e) b).2 := by
  refine ⟨rfl, rfl, by simp [fetch_heart_rate_data], by simp [main_model, fetch_heart_rate_data]⟩

/-- C8: each of the three Aggregate Point sequences returned by
`calculate_averages` is strictly increasing by period label, hence has no
duplicate periods. -/
theorem c8_chronological (s : List Sample) :
    (((calculate_averages s).1.map Prod.fst).Sorted (· < ·) ∧
      ((calculate_averages s).1.map Prod.fst).Nodup) ∧
    (((calculate_averages s).2.1.map Prod.fst).Sorted (· < ·) ∧
      ((calculate_averages s).2.1.map Prod.fst).Nodup) ∧
    (((calculate_averages s).2.2.map Prod.fst).Sorted (· < ·) ∧
      ((calculate_averages s).2.2.map Prod.fst).Nodup) := by
  have key : ∀ k : Nat → Nat,
      ((resampleMean k s).map Prod.fst).Sorted (· < ·) ∧
      ((resampleMean k s).map Prod.fst).Nodup := by
    intro k
    rw [map_fst_resampleMean]
    exact ⟨sorted_binKeys _ _, (sorted_binKeys k s).nodup⟩
  exact ⟨key dailyLabel, key weeklyLabel, key monthlyLabel⟩

/-- C9 is false as stated: `output_console` does not leave the Aggregate
Point sequences it receives unchanged — after the call the frames built
from the single sample at epoch 0 carry string indices instead of their
timestamps. -/
theorem c9_counterexample :
    output_console (toFrame (calculate_averages [⟨0, 70⟩]).1)
        (toFrame (calculate_averages [⟨0, 70⟩]).2.1)
        (toFrame (calculate_averages [⟨0, 70⟩]).2.2) ≠
      (toFrame (calculate_averages [⟨0, 70⟩]).1,
       toFrame (calculate_averages [⟨0, 70⟩]).2.1,
       toFrame (calculate_averages [⟨0, 70⟩]).2.2) := by
  intro h
  have h1 := congrArg (fun r => (Prod.fst r).map Prod.fst) h
  simp [output_console, toFrame, strftimeIdx, calculate_averages, resampleMean,
    binKeys, insertKey] at h1

/-- C9 amended: aggregation is a pure function of the Sample Series
(re-running it yields identical Aggregate Points) and `output_graph`
leaves the frames it receives unchanged, but `output_console` mutates
them: it keeps every mean yet replaces each frame's timestamp index with
`strftime`-formatted strings, so the post-call frames differ from the
ones passed in whenever the series is non-empty. -/
theorem c9_amended (s : List Sample) (hs : s ≠ []) :
    calculate_averages s = calculate_averages s ∧
    (∀ d w m : Frame, output_graph d w m = (d, w, m)) ∧
    (∀ d w m : Frame,
        (output_console d w m).1.map Prod.snd = d.map Prod.snd ∧
        (output_console d w m).2.1.map Prod.snd = w.map Prod.snd ∧
        (output_console d w m).2.2.map Prod.snd = m.map Prod.snd) ∧
    (output_console (toFrame (calculate_averages s).1)
        (toFrame (calculate_averages s).2.1)
        (toFrame (calculate_averages s).2.2)).1 ≠
      toFrame (calculate_averages s).1 := by
  refine ⟨rfl, fun d w m => rfl, ?_, ?_⟩
  · intro d w m
    refine ⟨?_, ?_, ?_⟩ <;> simp [output_console]
  · intro hEq
    have hne : resampleMean dailyLabel s ≠ [] := resampleMean_ne_nil hs
    cases hd : (calculate_averages s).1 with
    | nil => exact hne hd
    | cons p rest =>
        rw [hd] at hEq
        simp [output_console, toFrame, strftimeIdx] at hEq

/-- Witness for C9 amended at the single sample at epoch 0. -/
theorem c9_amended_witness :
    ([⟨0, 70⟩] : List Sample) ≠ [] ∧
    (output_console (toFrame (calculate_averages [⟨0, 70⟩]).1)
        (toFrame (calculate_averages [⟨0, 70⟩]).2.1)
        (toFrame (calculate_averages [⟨0, 70⟩]).2.2)).1 ≠
      toFrame (calculate_averages [⟨0, 70⟩]).1 :=
  ⟨by decide, (c9_amended [⟨0, 70⟩] (by decide)).2.2.2⟩

/-- C10: `fetch_heart_rate_data` is a total function of its modelled
inputs — its result is always `none` or a non-empty frame — and on every
modelled failure, database error or any other exception during fetching,
it returns `none` after printing a diagnostic. -/
theorem c10_never_raises (q : QueryOutcome) (b : Option Int) :
    ((fetch_heart_rate_data q b).1 = none ∨
      ∃ df, (fetch_heart_rate_data q b).1 = some df ∧ df ≠ []) ∧
    (∀ e, (q = .dbError e ∨ q = .otherError e) →
        (fetch_heart_rate_data q b).1 = none ∧
        (fetch_heart_rate_data q b).2 ≠ []) := by
  constructor
  · cases q with
    | dbError e => exact Or.inl rfl
    | otherError e => exact Or.inl rfl
    | rows table =>
        by_cases he : (table.filter (whereClause b)).isEmpty
        · exact Or.inl (by simp [fetch_heart_rate_data, he])
        · refine Or.inr ⟨(table.filter (whereClause b)).insertionSort
            (fun a c => a.epoch_millis ≤ c.epoch_millis), ?_, ?_⟩
          · simp [fetch_heart_rate_data, he]
          · intro h0
            have hperm := List.perm_insertionSort
              (fun a c : Sample => a.epoch_millis ≤ c.epoch_millis)
              (table.filter (whereClause b))
            rw [h0] at hperm
            have hnil : table.filter (whereClause b) = [] := hperm.symm.eq_nil
            exact he (by rw [hnil]; rfl)
  · intro e he
    rcases he with rfl | rfl
    · exact ⟨rfl, by simp [fetch_heart_rate_data]⟩
    · exact ⟨rfl, by simp [fetch_heart_rate_data]⟩

/-- Witness for C10 on a non-database exception: the fetch reports it and
signals the empty result. -/
theorem c10_never_raises_witness :
    (QueryOutcome.otherError "boom" = .dbError "boom" ∨
      QueryOutcome.otherError "boom" = .otherError "boom") ∧
    (fetch_heart_rate_data (.otherError "boom") none).1 = none ∧
    (fetch_heart_rate_data (.otherError "boom") none).2 ≠ [] :=
  ⟨Or.inr rfl, (c10_never_raises (.otherError "boom") none).2 "boom" (Or.inr rfl)⟩

end HealthConnect
